import Mathlib

/-!
# Verification of the BestKart BLE remote-control front end

Shallow embedding of the core logic of `src/src/App.js` and
`src/unnamed/part_000` (two near-identical variants of the same React app).
JS strings are modelled as `List Char`, JS numbers holding integer values as
`ℤ`/`ℕ`, the gamepad smoothing arithmetic (double precision in the source) as
exact rationals `ℚ`, and the joystick geometry (which uses `Math.sqrt`) as
exact reals `ℝ`.  Timer/listener side effects are made explicit as fields of
effect records; promise chains are modelled as sequential state transformers
on their success paths, with failure handling noted where it matters.
-/

namespace BestKart

/-! ## Frame codec, send side

`send` (App.js lines 63-82, part_000 lines 75-94): appends `'\n'`, and if the
resulting frame is longer than 20 characters splits it with
`data.match(/(.|[\r\n]){1,20}/g)` — i.e. into consecutive runs of at most 20
arbitrary characters, greedy, so every chunk except possibly the last has
exactly 20 characters.  Chunk 0 is written synchronously and chunk `i > 0` is
scheduled with `setTimeout(..., i * 100)`.  `send` returns early (no write at
all) when the payload is empty or no characteristic is cached.
-/

/-- Splits a character list into consecutive blocks: `acc` holds the (reversed)
characters of the block under construction, `n` the remaining capacity of that
block.  Embeds the greedy regex `/(.|[\r\n]){1,20}/g` used by `send`. -/
def chunk20Go : List Char → List Char → Nat → List (List Char)
  | [], acc, _ => if acc = [] then [] else [acc.reverse]
  | c :: cs, acc, n + 1 => chunk20Go cs (c :: acc) n
  | c :: cs, acc, 0 => acc.reverse :: chunk20Go cs [c] 19

/-- All maximal runs of at most 20 characters, in order. -/
def chunk20 (l : List Char) : List (List Char) :=
  chunk20Go l [] 20

/-- The chunk-pacing loop of `send`: chunk `i` (counting from `k`) is issued
with delay `i * 100` ms; delay `0` means the synchronous write of chunk 0. -/
def scheduleChunks : Nat → List (List Char) → List (Nat × List Char)
  | _, [] => []
  | i, c :: cs => (i * 100, c) :: scheduleChunks (i + 1) cs

/-- Embedding of `send(data)` from the source, as the schedule of physical writes it
produces: a list of `(delay in ms, chunk)` pairs.  `hasChar` is whether
`characteristicCacheRef.current` is non-null. -/
def send (hasChar : Bool) (data : List Char) : List (Nat × List Char) :=
  if data = [] ∨ hasChar = false then []
  else if 20 < (data ++ ['\n']).length then scheduleChunks 0 (chunk20 (data ++ ['\n']))
  else [(0, data ++ ['\n'])]

/-- The chunks produced by encoding a payload (the wire fragments of the
frame `data ++ "\n"`), in transmission order. -/
def encodeChunks (data : List Char) : List (List Char) :=
  (send true data).map Prod.snd

/-! ## Frame codec, receive side

`handleCharacteristicValueChanged` (App.js lines 95-106, part_000 lines
109-120): scans the notification payload character by character against the
persistent `readBufferRef`; each `'\n'` flushes the trimmed buffer as a
record if non-empty and clears the buffer; other characters append.
-/

/-- Embedding of `String.prototype.trim` on the ASCII protocol alphabet: drop whitespace
from both ends. -/
def jsTrim (l : List Char) : List Char :=
  ((l.dropWhile Char.isWhitespace).reverse.dropWhile Char.isWhitespace).reverse

/-- One decoder invocation: consumes the incoming characters against the
running buffer, returning the emitted records in order and the new buffer. -/
def decodeChars : List Char → List Char → List (List Char) × List Char
  | [], buf => ([], buf)
  | c :: rest, buf =>
    if c = '\n' then
      let d := jsTrim buf
      let r := decodeChars rest []
      (if d = [] then r.1 else d :: r.1, r.2)
    else
      decodeChars rest (buf ++ [c])

/-- Several decoder invocations in sequence, threading the buffer (the
fragmentary-delivery pattern: each element of `fs` is one notification). -/
def feedCalls : List (List Char) → List Char → List (List Char) × List Char
  | [], buf => ([], buf)
  | f :: fs, buf =>
    let p := decodeChars f buf
    let q := feedCalls fs p.2
    (p.1 ++ q.1, q.2)

/-! ### Codec lemmas -/

theorem chunk20Go_flatten (cs : List Char) :
    ∀ acc n, (chunk20Go cs acc n).flatten = acc.reverse ++ cs := by
  induction cs with
  | nil =>
    intro acc n
    by_cases h : acc = [] <;> simp [chunk20Go, h]
  | cons c cs ih =>
    intro acc n
    cases n with
    | zero => simp [chunk20Go, ih]
    | succ n => simp [chunk20Go, ih]

theorem chunk20_flatten (l : List Char) : (chunk20 l).flatten = l := by
  simpa using chunk20Go_flatten l [] 20

theorem scheduleChunks_map_snd (cs : List (List Char)) :
    ∀ k, (scheduleChunks k cs).map Prod.snd = cs := by
  induction cs with
  | nil => intro k; simp [scheduleChunks]
  | cons c cs ih => intro k; simp [scheduleChunks, ih]

theorem scheduleChunks_getElem (cs : List (List Char)) :
    ∀ k i, (scheduleChunks k cs).get? i = (cs.get? i).map (fun c => ((k + i) * 100, c)) := by
  induction cs with
  | nil => intro k i; simp [scheduleChunks]
  | cons c cs ih =>
    intro k i
    cases i with
    | zero => simp [scheduleChunks]
    | succ i =>
      have := ih (k + 1) i
      simp only [scheduleChunks, List.get?_cons_succ, this, List.get?]
      have harith : k + 1 + i = k + (i + 1) := by omega
      rw [harith]

theorem encodeChunks_flatten (data : List Char) (h : data ≠ []) :
    (encodeChunks data).flatten = data ++ ['\n'] := by
  unfold encodeChunks send
  simp only [h, false_or]
  split
  next hc => exact absurd hc (by simp)
  next =>
    split
    · simp [scheduleChunks_map_snd, chunk20_flatten]
    · simp

theorem decodeChars_no_newline (l : List Char) (hl : '\n' ∉ l) :
    ∀ buf, decodeChars l buf = ([], buf ++ l) := by
  induction l with
  | nil => intro buf; simp [decodeChars]
  | cons c cs ih =>
    intro buf
    have hc : ¬ c = '\n' := fun h => hl (h ▸ List.mem_cons_self c cs)
    have hcs : '\n' ∉ cs := fun h => hl (List.mem_cons_of_mem c h)
    simp [decodeChars, hc, ih hcs]

theorem decodeChars_append (a : List Char) :
    ∀ b buf, decodeChars (a ++ b) buf =
      ((decodeChars a buf).1 ++ (decodeChars b (decodeChars a buf).2).1,
       (decodeChars b (decodeChars a buf).2).2) := by
  induction a with
  | nil => intro b buf; simp [decodeChars]
  | cons c cs ih =>
    intro b buf
    by_cases hc : c = '\n'
    · subst hc
      simp only [List.cons_append, decodeChars, if_pos rfl, ih]
      by_cases hd : jsTrim buf = [] <;> simp [hd, ih, Prod.ext_iff]
    · simp [decodeChars, hc, ih]

theorem feedCalls_flatten (fs : List (List Char)) :
    ∀ buf, feedCalls fs buf = decodeChars fs.flatten buf := by
  induction fs with
  | nil => intro buf; simp [feedCalls, decodeChars]
  | cons f fs ih => intro buf; simp [feedCalls, ih, decodeChars_append]

/-! ## Canonical command and the telemetry publish step

The canonical command lives in the `steering` (internal range [-90,90]),
`motorSpeed` ([0,100]) and `direction` (1 forward / -1 backward / 0 brake)
state variables, mirrored into refs.  `sendingBLEinfo` is the Telemetry
Transmitter body: it converts steering to the wire range by `+90` and builds
the frame `angle;speed;direction`.  The two variants differ exactly here:
`src/unnamed/part_000` (lines 96-103) forces the published direction to `0`
whenever the speed is `0`, while `src/src/App.js` (lines 84-89) publishes the
stored direction unchanged (and never stores `0` at all).
-/

/-- The triple of state variables `steering` / `motorSpeed` / `direction`. -/
structure CmdState where
  steering : ℤ
  motorSpeed : ℤ
  direction : ℤ
deriving DecidableEq

/-! Embedding of the `src/src/App.js` variant. -/
namespace AppJs

/-- Embedding of `sendingBLEinfo` (App.js lines 86-89): the published wire triple
`(servoAngle, speed, direction)`; the direction ref is passed through. -/
def sendingBLEinfo (c : CmdState) : ℤ × ℤ × ℤ :=
  (c.steering + 90, c.motorSpeed, c.direction)

/-- The trigger branch of `gamepadLoop` (App.js lines 296-306): given the
scaled trigger values `r2`/`l2` and the previous direction state, returns the
new `(motorSpeed, direction)` pair.  In the tie branch only the speed is set;
the direction state is left unchanged. -/
def gamepadSpeedDir (r2 l2 prevDir : ℤ) : ℤ × ℤ :=
  if l2 < r2 then (r2, 1)
  else if r2 < l2 then (l2, -1)
  else (0, prevDir)

end AppJs

/-! Embedding of the `src/unnamed/part_000` variant. -/
namespace Part000

/-- Embedding of `sendingBLEinfo` (part_000 lines 98-103): the published wire triple;
`const dir = motorSpeedRef.current === 0 ? 0 : directionRef.current`. -/
def sendingBLEinfo (c : CmdState) : ℤ × ℤ × ℤ :=
  (c.steering + 90, c.motorSpeed, if c.motorSpeed = 0 then 0 else c.direction)

/-- The trigger branch of `gamepadLoop` (part_000 lines 403-413): the tie
branch sets the direction to `0` (brake). -/
def gamepadSpeedDir (r2 l2 _prevDir : ℤ) : ℤ × ℤ :=
  if l2 < r2 then (r2, 1)
  else if r2 < l2 then (l2, -1)
  else (0, 0)

end Part000

/-! ## Connection lifecycle

The BLE side of the app is a handful of refs: `deviceCacheRef`,
`characteristicCacheRef`, `intervalRef` (the 100 ms telemetry `setInterval`)
plus the `isConnected` flag and the command state.  The external BLE
primitives are modelled on their success paths; effect records make every
external call and listener operation explicit.
-/

/-- A cached BLE device handle; all the code ever reads from it is
`device.gatt.connected`. -/
structure Device where
  gattConnected : Bool
deriving DecidableEq

/-- The app-level connection state. -/
structure BLEState where
  telemetryRunning : Bool
  characteristicCache : Bool
  deviceCache : Option Device
  isConnected : Bool
  cmd : CmdState
deriving DecidableEq

/-- Reading `deviceCacheRef.current?.gatt?.connected`, with optional chaining. -/
def devGattConnected (s : BLEState) : Bool :=
  match s.deviceCache with
  | some d => d.gattConnected
  | none => false

/-- External calls issued by one `connect()` invocation. -/
structure ConnectFx where
  discoveryCalls : Nat
  gattConnectCalls : Nat
  notifyStarts : Nat
  timersStarted : Nat
deriving DecidableEq

/-- Embedding of `connect()` (App.js lines 159-168, identical in part_000 lines 173-182) on
its success path: use the cached device or run discovery; then
`connectDeviceAndCacheCharacteristic` (lines 116-129) resolves immediately
with the cached characteristic when `device.gatt.connected &&
characteristicCacheRef.current`, and otherwise issues one `gatt.connect()`
and caches the resolved characteristic; then notifications are (re)started,
`isConnected` is set and a fresh 100 ms telemetry interval is installed. -/
def connectModel (s : BLEState) : BLEState × ConnectFx :=
  let devDisc : Device × Nat :=
    match s.deviceCache with
    | some d => (d, 0)
    | none => ({ gattConnected := false }, 1)
  let cachedHit := devDisc.1.gattConnected && s.characteristicCache
  let devGatt : Device × Nat :=
    if cachedHit then (devDisc.1, 0) else ({ gattConnected := true }, 1)
  ({ telemetryRunning := true,
     characteristicCache := true,
     deviceCache := some devGatt.1,
     isConnected := true,
     cmd := s.cmd },
   { discoveryCalls := devDisc.2,
     gattConnectCalls := devGatt.2,
     notifyStarts := 1,
     timersStarted := 1 })

/-- The synchronous prefix of `handleDisconnection` (App.js lines 131-137,
part_000 lines 145-151): the safety reset `setSteering(0); setMotorSpeed(0);
setDirection(1)` runs before the reconnect attempt is even issued.  Nothing
else of the state is touched here — in particular not `intervalRef`. -/
def handleDisconnectionSafety (s : BLEState) : BLEState :=
  { s with cmd := { steering := 0, motorSpeed := 0, direction := 1 } }

/-- The whole `handleDisconnection` handler (App.js lines 131-145, part_000
lines 145-159): safety reset, then one reconnect attempt through
`connectDeviceAndCacheCharacteristic(event.target)`; on success the
characteristic is re-cached and the device's GATT link is up again, on
failure only `setIsConnected(false)` runs.  `intervalRef` is never read or
cleared on either path. -/
def handleDisconnection (reconnectOk : Bool) (s : BLEState) : BLEState :=
  let s1 := handleDisconnectionSafety s
  if reconnectOk then
    { s1 with characteristicCache := true, deviceCache := some { gattConnected := true } }
  else
    { s1 with isConnected := false }

/-- External calls and teardown steps issued by one `disconnect()`. -/
structure DisconnectFx where
  clearedTimer : Bool
  wroteSafeFrame : Option (List Char)
  removedDropListener : Bool
  calledGattDisconnect : Bool
  removedNotifyListener : Bool
deriving DecidableEq

/-- Embedding of `disconnect()` (App.js lines 177-206, part_000 lines 191-220),
parameterized by the variant's safety frame (`"90;0;1\n"` in App.js,
`"90;0;0\n"` in part_000).  In source order: clear the telemetry interval if
set; if a characteristic is cached and the device's GATT link is up, write one
best-effort safety frame (exceptions swallowed); if a device is cached,
remove its drop listener and, if its link is up, call `gatt.disconnect()`;
if a characteristic is cached, remove the notify listener and null the cache;
null the device cache; clear `isConnected`; `resetToSafeState()` (which sets
steering 0, speed 0, direction 1 in both variants). -/
def disconnectModel (safeData : List Char) (s : BLEState) : BLEState × DisconnectFx :=
  ({ telemetryRunning := false,
     characteristicCache := false,
     deviceCache := none,
     isConnected := false,
     cmd := { steering := 0, motorSpeed := 0, direction := 1 } },
   { clearedTimer := s.telemetryRunning,
     wroteSafeFrame :=
       if s.characteristicCache && devGattConnected s then some safeData else none,
     removedDropListener := s.deviceCache.isSome,
     calledGattDisconnect := devGattConnected s,
     removedNotifyListener := s.characteristicCache })

/-- A fully-connected state, used as the concrete scenario of several
counterexamples and witnesses. -/
def sFull : BLEState :=
  { telemetryRunning := true,
    characteristicCache := true,
    deviceCache := some { gattConnected := true },
    isConnected := true,
    cmd := { steering := 37, motorSpeed := 55, direction := -1 } }

/-! ## Gamepad steering smoothing

`gamepadLoop` (App.js lines 248-281, part_000 lines 354-387): per poll it
computes `deltaTime` (elapsed ms since the previous poll), the deadzone-mapped
target (`stickX * 90` outside the 0.1 deadzone, else 0), then moves
`smoothedSteeringRef` toward the target by at most
`maxChange = 300 * deltaTime / 1000`, snapping exactly to the target when the
remaining difference is within that bound.  The arithmetic is modelled over
exact rationals.
-/

/-- Embedding of `Math.sign`. -/
def jsSign (q : ℚ) : ℚ :=
  if 0 < q then 1 else if q < 0 then -1 else 0

/-- One smoothing update of `smoothedSteeringRef` for elapsed time
`deltaTime` (ms), target `target` and current value `cur`. -/
def smoothStep (deltaTime target cur : ℚ) : ℚ :=
  let maxChange := 300 * deltaTime / 1000
  let diff := target - cur
  if |diff| ≤ maxChange then target else cur + jsSign diff * maxChange

/-- Iterating `n` successive polls at a constant target and constant elapsed time. -/
def smoothIter (deltaTime target : ℚ) : Nat → ℚ → ℚ
  | 0, cur => cur
  | n + 1, cur => smoothIter deltaTime target n (smoothStep deltaTime target cur)

/-! ## Virtual joystick

`handleJoystickMove` (part_000 lines 273-313): pointer displacement
`(deltaX, deltaY)` from the stored center is clamped to the base circle of
radius `maxRadius` (using `Math.sqrt`, hence the model is over `ℝ`); the
horizontal component maps to `Math.round(deltaX / maxRadius * 90)` steering,
the inverted vertical component to `Math.round(-deltaY / maxRadius * 100)`
throttle with a 5-point deadzone selecting brake, positive values forward and
negative values backward.  `handleJoystickEnd` (lines 315-324) resets
everything to zero.
-/

/-- Embedding of `Math.round`: nearest integer, halves toward positive infinity. -/
noncomputable def jsRound (x : ℝ) : ℤ :=
  ⌊x + 1 / 2⌋

/-- The limit-to-circle step of `handleJoystickMove`. -/
noncomputable def joyClamp (maxRadius dx dy : ℝ) : ℝ × ℝ :=
  let distance := Real.sqrt (dx * dx + dy * dy)
  if maxRadius < distance then (dx / distance * maxRadius, dy / distance * maxRadius)
  else (dx, dy)

/-- Embedding of `handleJoystickMove`, as the `(steering, motorSpeed, direction)` triple it
publishes for a displacement `(dx, dy)` (screen coordinates: y grows
downward) and base radius `maxRadius`. -/
noncomputable def handleJoystickMove (maxRadius dx dy : ℝ) : ℤ × ℤ × ℤ :=
  let p := joyClamp maxRadius dx dy
  let steerValue := jsRound (p.1 / maxRadius * 90)
  let throttleValue := jsRound (-p.2 / maxRadius * 100)
  if 5 < throttleValue then (steerValue, throttleValue, 1)
  else if throttleValue < -5 then (steerValue, |throttleValue|, -1)
  else (steerValue, 0, 0)

/-- Embedding of `handleJoystickEnd`: releasing the joystick publishes steering 0,
speed 0, direction 0 (brake). -/
def handleJoystickEnd : ℤ × ℤ × ℤ :=
  (0, 0, 0)

/-! ### Further helper lemmas -/

theorem flatten_map_singleton (l : List Char) :
    (l.map (fun c => [c])).flatten = l := by
  induction l with
  | nil => simp
  | cons c cs ih => simp [ih]

theorem chunk20Go_small (cs : List Char) :
    ∀ acc n, cs.length ≤ n →
      chunk20Go cs acc n =
        if acc.reverse ++ cs = [] then [] else [acc.reverse ++ cs] := by
  induction cs with
  | nil =>
    intro acc n _
    by_cases h : acc = [] <;> simp [chunk20Go, h]
  | cons c cs ih =>
    intro acc n h
    cases n with
    | zero => simp at h
    | succ n =>
      have hrec := ih (c :: acc) n (by simpa using h)
      simp [chunk20Go, hrec]

theorem chunk20Go_flush (n : Nat) :
    ∀ cs acc, n < cs.length →
      chunk20Go cs acc n =
        (acc.reverse ++ cs.take n) :: chunk20Go (cs.drop n) [] 20 := by
  induction n with
  | zero =>
    intro cs acc h
    cases cs with
    | nil => simp at h
    | cons c cs => simp [chunk20Go]
  | succ n ih =>
    intro cs acc h
    cases cs with
    | nil => simp at h
    | cons c cs =>
      have hrec := ih cs (c :: acc) (by simpa using h)
      simp [chunk20Go, hrec]

theorem chunk20_two_blocks (l : List Char) (h1 : 20 < l.length) (h2 : l.length ≤ 40) :
    chunk20 l = [l.take 20, l.drop 20] := by
  unfold chunk20
  rw [chunk20Go_flush 20 l [] h1]
  rw [chunk20Go_small (l.drop 20) [] 20 (by simp; omega)]
  have hne : l.drop 20 ≠ [] := by
    intro hd
    have := congrArg List.length hd
    simp at this
    omega
  simp [hne]

theorem smoothStep_snap (deltaTime target cur : ℚ)
    (h : |target - cur| ≤ 300 * deltaTime / 1000) :
    smoothStep deltaTime target cur = target := by
  simp only [smoothStep]
  rw [if_pos h]

theorem abs_jsSign_mul (q M : ℚ) (hq : q ≠ 0) (hM : 0 ≤ M) : |jsSign q * M| = M := by
  unfold jsSign
  split_ifs with h1 h2
  · rw [one_mul, abs_of_nonneg hM]
  · rw [neg_one_mul, abs_neg, abs_of_nonneg hM]
  · exact absurd (le_antisymm (not_lt.mp h1) (not_lt.mp h2)) hq

theorem smoothStep_bound (deltaTime target cur : ℚ) (hdt : 0 ≤ deltaTime) :
    |smoothStep deltaTime target cur - cur| ≤ 300 * deltaTime / 1000 := by
  have hM : (0:ℚ) ≤ 300 * deltaTime / 1000 := by positivity
  simp only [smoothStep]
  split_ifs with h
  · exact h
  · rw [add_sub_cancel_left]
    rw [abs_jsSign_mul _ _ ?_ hM]
    · intro h0
      exact h (by rw [h0]; simpa using hM)

theorem smoothStep_dist (deltaTime target cur : ℚ) (hdt : 0 ≤ deltaTime)
    (h : ¬ |target - cur| ≤ 300 * deltaTime / 1000) :
    |target - smoothStep deltaTime target cur| =
      |target - cur| - 300 * deltaTime / 1000 := by
  have hM : (0:ℚ) ≤ 300 * deltaTime / 1000 := by positivity
  have hlt : 300 * deltaTime / 1000 < |target - cur| := not_le.mp h
  simp only [smoothStep]
  rw [if_neg h]
  unfold jsSign
  rcases lt_trichotomy 0 (target - cur) with hd | hd | hd
  · rw [if_pos hd, one_mul]
    have harr : target - (cur + 300 * deltaTime / 1000) =
        (target - cur) - 300 * deltaTime / 1000 := by ring
    rw [harr, abs_of_nonneg (by rw [abs_of_pos hd] at hlt; linarith), abs_of_pos hd]
  · exact absurd (by rw [← hd]; simpa using hM) h
  · rw [if_neg (asymm hd), if_pos hd, neg_one_mul]
    have harr : target - (cur + -(300 * deltaTime / 1000)) =
        (target - cur) + 300 * deltaTime / 1000 := by ring
    rw [harr, abs_of_nonpos (by rw [abs_of_neg hd] at hlt; linarith), abs_of_neg hd]
    ring

theorem smoothStep_self (deltaTime target : ℚ) (hdt : 0 ≤ deltaTime) :
    smoothStep deltaTime target target = target := by
  apply smoothStep_snap
  simp only [sub_self, abs_zero]
  positivity

theorem smoothIter_self (deltaTime target : ℚ) (hdt : 0 ≤ deltaTime) :
    ∀ n, smoothIter deltaTime target n target = target := by
  intro n
  induction n with
  | zero => rfl
  | succ n ih => simp [smoothIter, smoothStep_self deltaTime target hdt, ih]

theorem smoothIter_reaches (deltaTime target : ℚ) (hdt : 0 ≤ deltaTime) :
    ∀ (n : ℕ) (cur : ℚ), |target - cur| ≤ n * (300 * deltaTime / 1000) →
      smoothIter deltaTime target n cur = target := by
  intro n
  induction n with
  | zero =>
    intro cur h
    rw [Nat.cast_zero, zero_mul] at h
    have hz := sub_eq_zero.mp (abs_nonpos_iff.mp h)
    exact hz.symm ▸ rfl
  | succ n ih =>
    intro cur h
    by_cases hc : |target - cur| ≤ 300 * deltaTime / 1000
    · show smoothIter deltaTime target n (smoothStep deltaTime target cur) = target
      rw [smoothStep_snap _ _ _ hc]
      exact smoothIter_self deltaTime target hdt n
    · show smoothIter deltaTime target n (smoothStep deltaTime target cur) = target
      apply ih
      rw [smoothStep_dist _ _ _ hdt hc]
      push_cast at h ⊢
      linarith

theorem jsRound_zero : jsRound 0 = 0 := by
  unfold jsRound
  rw [Int.floor_eq_iff]
  norm_num

theorem jsRound_ninety : jsRound 90 = 90 := by
  unfold jsRound
  rw [Int.floor_eq_iff]
  norm_num

theorem joyClamp_center (r : ℝ) (hr : 0 < r) : joyClamp r 0 0 = (0, 0) := by
  unfold joyClamp
  have hs : Real.sqrt (0 * 0 + 0 * 0) = 0 := by
    rw [show (0:ℝ) * 0 + 0 * 0 = 0 by ring, Real.sqrt_zero]
  rw [hs, if_neg (not_lt.mpr hr.le)]

theorem joyClamp_right (r : ℝ) (hr : 0 < r) : joyClamp r r 0 = (r, 0) := by
  unfold joyClamp
  have hs : Real.sqrt (r * r + 0 * 0) = r := by
    rw [show r * r + 0 * 0 = r * r by ring, Real.sqrt_mul_self hr.le]
  rw [hs, if_neg (lt_irrefl r)]

/-- An empty / fully-torn-down app state. -/
def sEmpty : BLEState :=
  { telemetryRunning := false,
    characteristicCache := false,
    deviceCache := none,
    isConnected := false,
    cmd := { steering := 0, motorSpeed := 0, direction := 1 } }

/-! ## Claims -/

/-- Claim C1, counterexample: in the `src/src/App.js` variant, after a gamepad
poll with both triggers released (`r2 = l2 = 0`) from a forward-going state,
the published command has throttle `0` but direction `1`, not brake — the tie
branch of `gamepadLoop` never writes the direction and `sendingBLEinfo`
passes the stored direction through unchanged. -/
theorem C1_counterexample :
    (AppJs.sendingBLEinfo
      { steering := 0,
        motorSpeed := (AppJs.gamepadSpeedDir 0 0 1).1,
        direction := (AppJs.gamepadSpeedDir 0 0 1).2 }).2.1 = 0 ∧
    (AppJs.sendingBLEinfo
      { steering := 0,
        motorSpeed := (AppJs.gamepadSpeedDir 0 0 1).1,
        direction := (AppJs.gamepadSpeedDir 0 0 1).2 }).2.2 ≠ 0 := by
  decide

/-- Claim C1, amended: in the `src/unnamed/part_000` variant the transmitter
itself forces the published direction to `0` whenever the published throttle
is `0`, for every command state (hence for every sequence of input-fusion
updates in any modality); the `src/src/App.js` variant does not enforce
this. -/
theorem C1_part000_zero_throttle_is_brake (c : CmdState) (h : c.motorSpeed = 0) :
    (Part000.sendingBLEinfo c).2.1 = 0 ∧ (Part000.sendingBLEinfo c).2.2 = 0 := by
  simp [Part000.sendingBLEinfo, h]

/-- Claim C1, witness: the amended statement evaluated at a concrete command
state with zero speed and stale forward direction. -/
theorem C1_part000_zero_throttle_is_brake_witness :
    (CmdState.mk 12 0 (-1)).motorSpeed = 0 ∧
    ((Part000.sendingBLEinfo ⟨12, 0, -1⟩).2.1 = 0 ∧
     (Part000.sendingBLEinfo ⟨12, 0, -1⟩).2.2 = 0) :=
  ⟨by decide, C1_part000_zero_throttle_is_brake ⟨12, 0, -1⟩ (by decide)⟩

/-- Claim C2, counterexample: the drop handler's safety reset (which runs
before the reconnect attempt) sets steering `0` and throttle `0` but
direction `1` (Forward), not `0` (Brake) — `handleDisconnection` calls
`setDirection(1)` in both variants. -/
theorem C2_counterexample :
    (handleDisconnectionSafety sFull).cmd.steering = 0 ∧
    (handleDisconnectionSafety sFull).cmd.motorSpeed = 0 ∧
    (handleDisconnectionSafety sFull).cmd.direction ≠ 0 := by
  decide

/-- Claim C2, amended: the drop handler deterministically resets the canonical
command to steering `0` (internal; wire `90`), throttle `0`, direction field
`1` (Forward, not Brake) before any reconnect attempt begins — and across
the whole handler regardless of the reconnect outcome; because the throttle
is `0`, the `part_000` transmitter would still publish the neutral wire
triple `(90, 0, 0)` for this state. -/
theorem C2_neutral_on_drop (s : BLEState) :
    (handleDisconnectionSafety s).cmd =
      { steering := 0, motorSpeed := 0, direction := 1 } ∧
    (∀ ok : Bool, (handleDisconnection ok s).cmd =
      { steering := 0, motorSpeed := 0, direction := 1 }) ∧
    Part000.sendingBLEinfo (handleDisconnectionSafety s).cmd = (90, 0, 0) := by
  refine ⟨rfl, fun ok => ?_, by show Part000.sendingBLEinfo ⟨0, 0, 1⟩ = (90, 0, 0); decide⟩
  cases ok <;> rfl

/-- Claim C3: on an unexpected `gattserverdisconnected` event delivered in the
Connected state (100 ms telemetry interval running), the handler leaves the
telemetry interval running — `handleDisconnection` never touches
`intervalRef` — on both the successful-reconnect and the failed-reconnect
path, contradicting the specified stop-immediately-and-exactly-once
behaviour. -/
theorem C3_timer_left_running_on_drop :
    sFull.telemetryRunning = true ∧
    (handleDisconnection true sFull).telemetryRunning = true ∧
    (handleDisconnection false sFull).telemetryRunning = true := by
  decide

/-- Claim C4, counterexample: an explicit disconnect from a fully-connected
state clears the cached device handle (`deviceCacheRef.current = null`), so
it is not retained, and a subsequent connect must re-run discovery. -/
theorem C4_counterexample :
    sFull.deviceCache.isSome = true ∧
    (disconnectModel ("90;0;0\n".data) sFull).1.deviceCache = none ∧
    (connectModel (disconnectModel ("90;0;0\n".data) sFull).1).2.discoveryCalls = 1 := by
  decide

/-- Claim C4, amended: after an explicit disconnect both the cached
characteristic and the cached device handle are cleared (so a later connect
re-runs discovery); the other teardown steps are all performed: the telemetry
timer is stopped, one best-effort safety frame is written, the notify
listener is removed, and GATT is torn down. -/
theorem C4_disconnect_teardown (sd : List Char) (s : BLEState)
    (hchar : s.characteristicCache = true)
    (hdev : s.deviceCache = some { gattConnected := true })
    (htimer : s.telemetryRunning = true) :
    (disconnectModel sd s).1.characteristicCache = false ∧
    (disconnectModel sd s).1.deviceCache = none ∧
    (disconnectModel sd s).2.clearedTimer = true ∧
    (disconnectModel sd s).2.wroteSafeFrame = some sd ∧
    (disconnectModel sd s).2.removedNotifyListener = true ∧
    (disconnectModel sd s).2.calledGattDisconnect = true ∧
    (connectModel (disconnectModel sd s).1).2.discoveryCalls = 1 := by
  simp [disconnectModel, connectModel, devGattConnected, hchar, hdev, htimer]

/-- Claim C4, witness: the amended teardown behaviour evaluated on a
fully-connected state with the `part_000` safety frame. -/
theorem C4_disconnect_teardown_witness :
    sFull.characteristicCache = true ∧
    sFull.deviceCache = some { gattConnected := true } ∧
    sFull.telemetryRunning = true ∧
    ((disconnectModel ("90;0;0\n".data) sFull).1.characteristicCache = false ∧
     (disconnectModel ("90;0;0\n".data) sFull).1.deviceCache = none ∧
     (disconnectModel ("90;0;0\n".data) sFull).2.clearedTimer = true ∧
     (disconnectModel ("90;0;0\n".data) sFull).2.wroteSafeFrame = some ("90;0;0\n".data) ∧
     (disconnectModel ("90;0;0\n".data) sFull).2.removedNotifyListener = true ∧
     (disconnectModel ("90;0;0\n".data) sFull).2.calledGattDisconnect = true ∧
     (connectModel (disconnectModel ("90;0;0\n".data) sFull).1).2.discoveryCalls = 1) :=
  ⟨by decide, by decide, by decide,
   C4_disconnect_teardown ("90;0;0\n".data) sFull (by decide) (by decide) (by decide)⟩

/-- Claim C5: chunking round-trip with fragmentation invariance.  For any
command-derived payload (no embedded newline, non-empty after trimming),
decoding the concatenation of the chunks produced by encoding yields exactly
the single trimmed record, both in one decoder call and fed one character per
call. -/
theorem C5_roundtrip (s : List Char) (h1 : '\n' ∉ s) (h2 : jsTrim s ≠ []) :
    decodeChars (encodeChunks s).flatten [] = ([jsTrim s], []) ∧
    feedCalls ((encodeChunks s).flatten.map (fun c => [c])) [] = ([jsTrim s], []) := by
  have hs : s ≠ [] := by rintro rfl; exact h2 rfl
  have hflat : (encodeChunks s).flatten = s ++ ['\n'] := encodeChunks_flatten s hs
  have hmain : decodeChars (s ++ ['\n']) [] = ([jsTrim s], []) := by
    rw [decodeChars_append, decodeChars_no_newline s h1 []]
    simp [decodeChars, h2]
  refine ⟨by rw [hflat]; exact hmain, ?_⟩
  rw [feedCalls_flatten, flatten_map_singleton, hflat]
  exact hmain

/-- Claim C5, witness: the round-trip evaluated on the concrete telemetry
frame payload. -/
theorem C5_roundtrip_witness :
    ('\n' ∉ ("135;80;1".data)) ∧ jsTrim ("135;80;1".data) ≠ [] ∧
    (decodeChars (encodeChunks ("135;80;1".data)).flatten [] =
       ([jsTrim ("135;80;1".data)], []) ∧
     feedCalls ((encodeChunks ("135;80;1".data)).flatten.map (fun c => [c])) [] =
       ([jsTrim ("135;80;1".data)], [])) :=
  ⟨by decide, by decide, C5_roundtrip ("135;80;1".data) (by decide) (by decide)⟩

/-- Claim C6: the frame for `angle=135;speed=80;direction=1` fits in one
chunk written immediately (delay `0`); every 25-character payload is split
into a 20-character chunk 0 written synchronously and a chunk 1 holding the
remainder scheduled at `+100` ms; and in general chunk `i` of any send is
scheduled at `i * 100` ms. -/
theorem C6_send_chunking :
    send true ("135;80;1".data) = [(0, "135;80;1\n".data)] ∧
    ("135;80;1\n".data).length ≤ 20 ∧
    (∀ p : List Char, p.length = 25 →
      send true p = [(0, p.take 20), (100, p.drop 20 ++ ['\n'])] ∧
      (p.take 20).length = 20) ∧
    (∀ (s : List Char) (i d : Nat) (c : List Char),
      (send true s).get? i = some (d, c) → d = i * 100) := by
  refine ⟨by decide, by decide, ?_, ?_⟩
  · intro p hp
    have hpne : p ≠ [] := by rintro rfl; simp at hp
    have hlen : (p ++ ['\n']).length = 26 := by simp [hp]
    constructor
    · unfold send
      rw [if_neg (by simp [hpne]), if_pos (by omega)]
      rw [chunk20_two_blocks (p ++ ['\n']) (by omega) (by omega)]
      rw [List.take_append_of_le_length (by omega),
          List.drop_append_of_le_length (by omega)]
      simp [scheduleChunks]
    · simp [hp]
  · intro s i d c h
    unfold send at h
    split at h
    · simp at h
    · split at h
      · rw [scheduleChunks_getElem] at h
        rcases Option.map_eq_some'.mp h with ⟨w, hw, hEq⟩
        have hfst := congrArg Prod.fst hEq
        simp at hfst
        omega
      · cases i with
        | zero =>
          have := (Option.some.injEq _ _).mp h
          have hd := congrArg Prod.fst this
          simp at hd
          omega
        | succ j => simp at h

/-- Claim C6, witness: the general pacing law applied to chunk 1 of a
concrete 25-character payload. -/
theorem C6_send_chunking_witness :
    (send true ("1234567890123456789012345".data)).get? 1 =
      some (100, "12345\n".data) ∧
    (100 : Nat) = 1 * 100 :=
  ⟨by decide,
   C6_send_chunking.2.2.2 ("1234567890123456789012345".data) 1 100 ("12345\n".data)
     (by decide)⟩

/-- Claim C7: if a device is cached with its GATT link up and a characteristic
is cached, a new `connect()` issues no device-discovery call and no GATT
connect call, and both caches are left unchanged. -/
theorem C7_connect_idempotent (s : BLEState) (d : Device)
    (h1 : s.deviceCache = some d) (h2 : d.gattConnected = true)
    (h3 : s.characteristicCache = true) :
    (connectModel s).2.discoveryCalls = 0 ∧
    (connectModel s).2.gattConnectCalls = 0 ∧
    (connectModel s).1.deviceCache = s.deviceCache ∧
    (connectModel s).1.characteristicCache = s.characteristicCache := by
  simp [connectModel, h1, h2, h3]

/-- Claim C7, witness: idempotent connect evaluated on the fully-connected
state. -/
theorem C7_connect_idempotent_witness :
    sFull.deviceCache = some { gattConnected := true } ∧
    (Device.mk true).gattConnected = true ∧
    sFull.characteristicCache = true ∧
    ((connectModel sFull).2.discoveryCalls = 0 ∧
     (connectModel sFull).2.gattConnectCalls = 0 ∧
     (connectModel sFull).1.deviceCache = sFull.deviceCache ∧
     (connectModel sFull).1.characteristicCache = sFull.characteristicCache) :=
  ⟨by decide, by decide, by decide,
   C7_connect_idempotent sFull ⟨true⟩ (by decide) (by decide) (by decide)⟩

/-- Claim C8: per gamepad poll the smoothed steering moves by at most
`300 * deltaTime / 1000` degrees, snaps exactly to the target when the
remaining difference is within that bound, and, for a positive elapsed time
per poll, reaches a constant target after finitely many polls. -/
theorem C8_gamepad_rate_limit (deltaTime target cur : ℚ) (hdt : 0 ≤ deltaTime) :
    |smoothStep deltaTime target cur - cur| ≤ 300 * deltaTime / 1000 ∧
    (|target - cur| ≤ 300 * deltaTime / 1000 →
      smoothStep deltaTime target cur = target) ∧
    (0 < deltaTime → ∃ n : ℕ, smoothIter deltaTime target n cur = target) := by
  refine ⟨smoothStep_bound _ _ _ hdt, fun h => smoothStep_snap _ _ _ h, fun hpos => ?_⟩
  have hMpos : (0:ℚ) < 300 * deltaTime / 1000 := by positivity
  obtain ⟨n, hn⟩ := exists_nat_ge (|target - cur| / (300 * deltaTime / 1000))
  rw [div_le_iff₀ hMpos] at hn
  exact ⟨n, smoothIter_reaches _ _ hdt n cur hn⟩

/-- Claim C8, witness: the rate bound and the snap behaviour at a 1-second
poll gap, target 90, current 0. -/
theorem C8_gamepad_rate_limit_witness :
    (0:ℚ) ≤ 1000 ∧ |smoothStep 1000 90 0 - 0| ≤ 300 * 1000 / 1000 :=
  ⟨by decide, (C8_gamepad_rate_limit 1000 90 0 (by decide)).1⟩

/-- Claim C9: a joystick sample at the center publishes steering `0`,
throttle `0`, direction brake; a sample at full right displacement with
neutral vertical publishes steering `90`, throttle `0`, brake; any sample
whose rounded vertical throttle lies within the 5-point deadzone publishes
throttle `0` with brake; and releasing the joystick publishes `(0, 0, 0)`. -/
theorem C9_joystick_scenarios (maxRadius : ℝ) (hr : 0 < maxRadius) :
    handleJoystickMove maxRadius 0 0 = (0, 0, 0) ∧
    handleJoystickMove maxRadius maxRadius 0 = (90, 0, 0) ∧
    (∀ dx dy : ℝ,
      -5 ≤ jsRound (-(joyClamp maxRadius dx dy).2 / maxRadius * 100) →
      jsRound (-(joyClamp maxRadius dx dy).2 / maxRadius * 100) ≤ 5 →
      (handleJoystickMove maxRadius dx dy).2.1 = 0 ∧
      (handleJoystickMove maxRadius dx dy).2.2 = 0) ∧
    handleJoystickEnd = (0, 0, 0) := by
  refine ⟨?_, ?_, ?_, rfl⟩
  · simp only [handleJoystickMove, joyClamp_center maxRadius hr]
    norm_num [jsRound_zero]
  · simp only [handleJoystickMove, joyClamp_right maxRadius hr]
    rw [div_self hr.ne']
    norm_num [jsRound_zero, jsRound_ninety]
  · intro dx dy hlow hhigh
    simp only [handleJoystickMove]
    rw [if_neg (not_lt.mpr hhigh), if_neg (not_lt.mpr hlow)]
    exact ⟨rfl, rfl⟩

/-- Claim C9, witness: the concrete scenarios at radius 1. -/
theorem C9_joystick_scenarios_witness :
    handleJoystickMove 1 0 0 = (0, 0, 0) ∧
    handleJoystickMove 1 1 0 = (90, 0, 0) ∧
    handleJoystickEnd = (0, 0, 0) :=
  ⟨(C9_joystick_scenarios 1 one_pos).1,
   (C9_joystick_scenarios 1 one_pos).2.1,
   (C9_joystick_scenarios 1 one_pos).2.2.2⟩

/-- Claim C10: `disconnect()` is total and safe from any state: it always
ends with both caches cleared, the connected flag false, the telemetry timer
stopped and the command at the safe values; it performs no write when the
characteristic is absent or the link is down, no GATT teardown when the link
is down, no listener removal when no device is cached, and no timer clear
when no timer runs; and a second invocation is a pure no-op producing no
effects at all. -/
theorem C10_disconnect_total (sd : List Char) (s : BLEState) :
    (disconnectModel sd s).1 = sEmpty ∧
    (s.characteristicCache = false → (disconnectModel sd s).2.wroteSafeFrame = none) ∧
    (devGattConnected s = false →
      (disconnectModel sd s).2.wroteSafeFrame = none ∧
      (disconnectModel sd s).2.calledGattDisconnect = false) ∧
    (s.deviceCache = none → (disconnectModel sd s).2.removedDropListener = false) ∧
    (s.telemetryRunning = false → (disconnectModel sd s).2.clearedTimer = false) ∧
    (disconnectModel sd (disconnectModel sd s).1 =
      ((disconnectModel sd s).1,
       { clearedTimer := false, wroteSafeFrame := none, removedDropListener := false,
         calledGattDisconnect := false, removedNotifyListener := false })) := by
  refine ⟨rfl, ?_, ?_, ?_, ?_, rfl⟩
  · intro h; simp [disconnectModel, h]
  · intro h; simp [disconnectModel, h]
  · intro h; simp [disconnectModel, h]
  · intro h; simp [disconnectModel, h]

/-- Claim C10, witness: disconnecting from an already-empty state changes
nothing and performs no write. -/
theorem C10_disconnect_total_witness :
    (disconnectModel [] sEmpty).1 = sEmpty ∧
    (disconnectModel [] sEmpty).2.wroteSafeFrame = none :=
  ⟨(C10_disconnect_total [] sEmpty).1,
   (C10_disconnect_total [] sEmpty).2.1 rfl⟩

end BestKart
